import Mathlib

/-!
Verification of the Python string-engine bridge
(`src/lib/llm/src/engines/python.rs` of the dynamo repository).

The bridge loads a user Python file as a module, resolves its `generate`
callable, runs an asyncio event loop on a dedicated blocking thread, and per
request pumps the items of the guest async generator through a bounded mpsc
channel into the host stream, classifying per-item failures.

The shallow embedding below translates the loop of `generate`
(python.rs lines 175-246), `process_item` (lines 254-272), the constructors
`PythonStringEngine::new` / `python_file_to_module` / `run_asyncio`
(lines 72-111), and the module-name computation of the `PY_IMPORT` snippet
(lines 41-52) into executable Lean functions, and proves the specified
stream-shape, error-classification, channel and construction properties.
-/

namespace PyBridge

/-- Modelled from the spec: `Annotated<Resp>` (runtime crate, not under src/)
at the granularity the bridge uses it — `Annotated::from_data` produces a
data-tagged response, `Annotated::from_error` an error-tagged one. -/
inductive Annotated (Resp : Type) where
  | data (r : Resp)
  | error (msg : String)
deriving DecidableEq, Repr

/-- Error taxonomy of the response processing, python.rs lines 113-123. -/
inductive ResponseProcessingError where
  | PythonException (msg : String)
  | DeserializeError (msg : String)
  | OffloadError (msg : String)
deriving DecidableEq, Repr

/-- One item pulled from the guest async generator stream, together with the
outcome of the host-side conversion steps that `process_item` performs on it:
the stream yields `Result<Py<PyAny>, PyErr>` (an `exn` models the `Err` case),
and for an `Ok` object the offloaded `depythonize` either succeeds with a
response value, fails to deserialize, or the `spawn_blocking` join itself
fails. Making these outcomes part of the item datum turns `process_item`
(python.rs lines 254-272) into a pure function. -/
inductive GuestItem (Resp : Type) where
  | okDeser (r : Resp)
  | okDeserFail (msg : String)
  | okOffloadFail (msg : String)
  | exn (msg : String)
deriving DecidableEq, Repr

/-- Embeds `process_item` (python.rs lines 254-272): an `Err` item maps to
`PythonException`; otherwise the offloaded `depythonize` join error maps to
`OffloadError`, its deserialization error to `DeserializeError`, and success
to `Annotated::from_data`. -/
def process_item {Resp : Type} :
    GuestItem Resp → Except ResponseProcessingError (Annotated Resp)
  | GuestItem.exn m => Except.error (ResponseProcessingError.PythonException m)
  | GuestItem.okOffloadFail m => Except.error (ResponseProcessingError.OffloadError m)
  | GuestItem.okDeserFail m => Except.error (ResponseProcessingError.DeserializeError m)
  | GuestItem.okDeser r => Except.ok (Annotated.data r)

/-- Error message built in the forwarding loop for each error class,
python.rs lines 199-219. -/
def errorMsg : ResponseProcessingError → String
  | ResponseProcessingError.DeserializeError e =>
      "critical error: invalid response object from python async generator; application-logic-mismatch: " ++ e
  | ResponseProcessingError.PythonException e =>
      "a python exception was caught while processing the async generator: " ++ e
  | ResponseProcessingError.OffloadError e =>
      "critical error: failed to offload the python async generator to a new thread: " ++ e

/-- Number of `ctx.stop_generating()` invocations performed while handling one
processing error: the call appears only in the `DeserializeError` arm
(python.rs line 204). -/
def stopsFor : ResponseProcessingError → Nat
  | ResponseProcessingError.DeserializeError _ => 1
  | _ => 0

/-- Embeds the forwarding loop of `generate` (python.rs lines 184-240).
`accept` models the channel consumer: the number of `tx.send` calls that will
still succeed before the receiver is dropped (`send` then errs and the loop
breaks). Returns the responses actually delivered to the channel, paired with
the total number of `stop_generating` invocations. On a `process_item` error
the loop sets `done = true`, computes the message (invoking `stop_generating`
in the deserialize arm), sends one error-tagged response and then breaks. -/
def pump {Resp : Type} : List (GuestItem Resp) → Nat → List (Annotated Resp) × Nat
  | [], _ => ([], 0)
  | item :: rest, accept =>
    match process_item item with
    | Except.ok response =>
      match accept with
      | 0 => ([], 0)
      | a + 1 =>
        let r := pump rest a
        (response :: r.1, r.2)
    | Except.error e =>
      match accept with
      | 0 => ([], stopsFor e)
      | _ + 1 => ([Annotated.error (errorMsg e)], stopsFor e)

/-- Scheduling-relevant events of one forwarding-loop execution:
`pull k` is `stream.next()` returning the `k`-th item (the loop's `count`),
`convert k` is the completion of `process_item` for it, `send k` a successful
`tx.send`, and `sendFail k` a failed `tx.send` (consumer gone). -/
inductive Event where
  | pull (k : Nat)
  | convert (k : Nat)
  | send (k : Nat)
  | sendFail (k : Nat)
deriving DecidableEq, Repr

/-- Event trace of the forwarding loop (python.rs lines 184-240), mirroring
`pump`: the loop body awaits `process_item` and then awaits the channel send
before the next `stream.next()` call. -/
def pumpTrace {Resp : Type} : List (GuestItem Resp) → Nat → Nat → List Event
  | [], _, _ => []
  | item :: rest, accept, k =>
    Event.pull k :: Event.convert k ::
      (match process_item item with
       | Except.ok _ =>
         match accept with
         | 0 => [Event.sendFail k]
         | a + 1 => Event.send k :: pumpTrace rest a (k + 1)
       | Except.error _ =>
         match accept with
         | 0 => [Event.sendFail k]
         | _ + 1 => [Event.send k])

/-- Phase of the per-item state machine: between items, after a pull, after a
conversion. -/
inductive Phase where
  | idle
  | pulled
  | converted
deriving DecidableEq, Repr

/-- Checks that a trace is strictly sequential: starting at item index `k`,
events are exactly pull `k`, convert `k`, then send `k` (moving to item
`k + 1`) or a terminal failed send; no pull of item `k + 1` can occur before
item `k`'s conversion and send completed, so at most one item is in flight. -/
def seqOK : List Event → Nat → Phase → Bool
  | [], _, _ => true
  | Event.pull i :: rest, k, Phase.idle => i == k && seqOK rest k Phase.pulled
  | Event.convert i :: rest, k, Phase.pulled => i == k && seqOK rest k Phase.converted
  | Event.send i :: rest, k, Phase.converted => i == k && seqOK rest (k + 1) Phase.idle
  | Event.sendFail i :: rest, k, Phase.converted => i == k && rest.isEmpty
  | _, _, _ => false

/-- Checks that once a send fails (consumer disconnected) the trace contains
no further events. -/
def noEventsAfterSendFail : List Event → Bool
  | [] => true
  | Event.sendFail _ :: rest => rest.isEmpty
  | _ :: rest => noEventsAfterSendFail rest

/-- Capacity of the per-request response channel,
`mpsc::channel::<Annotated<Resp>>(128)` at python.rs line 142. -/
def channelCapacity : Nat := 128

/-- Modelled from the spec: state of the bounded single-producer
single-consumer Response Channel (tokio `mpsc`, a dependency, is not under
src/). `pending` are the responses the producer still wants to send in order,
`buf` the in-flight FIFO buffer, `closed` whether the producer end was
dropped, `received` what the consumer has taken off the stream. -/
structure ChanState (α : Type) where
  pending : List α
  buf : List α
  closed : Bool
  received : List α
deriving DecidableEq, Repr

/-- Modelled from the spec: one scheduling step of the channel. On a producer
turn, the next pending item is enqueued only if the buffer holds fewer than
`cap` items — a full buffer suspends the producer (state unchanged), it never
drops or reorders; an exhausted producer drops its end, closing the channel.
On a consumer turn the oldest buffered item (if any) is received. -/
def chanStep {α : Type} (cap : Nat) (producerTurn : Bool) (s : ChanState α) :
    ChanState α :=
  if producerTurn then
    match s.pending with
    | [] => ⟨[], s.buf, true, s.received⟩
    | x :: xs =>
      if s.buf.length < cap then ⟨xs, s.buf ++ [x], s.closed, s.received⟩
      else s
  else
    match s.buf with
    | [] => s
    | x :: xs => ⟨s.pending, xs, s.closed, s.received ++ [x]⟩

/-- Runs the channel under an arbitrary interleaving of producer (`true`) and
consumer (`false`) turns. -/
def chanRun {α : Type} (cap : Nat) (sched : List Bool) (s : ChanState α) :
    ChanState α :=
  List.foldl (fun t b => chanStep cap b t) s sched

/-- Channel invariant: the buffer respects the capacity bound, no item is
dropped, duplicated or reordered (`received ++ buf ++ pending` is always the
original send sequence), and a closed channel has an exhausted producer. -/
def ChanInv {α : Type} (cap : Nat) (items : List α) (s : ChanState α) : Prop :=
  s.buf.length ≤ cap ∧ s.received ++ s.buf ++ s.pending = items ∧
    (s.closed = true → s.pending = [])

/-- Outcome of the initial offloaded setup step of `generate`
(python.rs lines 157-165): pythonizing the request, calling the generator and
turning the result into a stream inside `Python::with_gil`, all behind
`spawn_blocking(...).await??`. Either some step fails (the two `?` propagate
a join error or a Python error out of `generate`) or it yields the guest
stream, modelled as the list of its items. -/
inductive SetupOutcome (Resp : Type) where
  | fail (msg : String)
  | ok (items : List (GuestItem Resp))
deriving DecidableEq, Repr

/-- Observable outcome of a successful `generate` call: the responses that
reach the consumer, the number of `stop_generating` invocations, and the fact
that the forwarding task was spawned. -/
structure GenerateOutput (Resp : Type) where
  responses : List (Annotated Resp)
  stopCalls : Nat
  forwardingTaskSpawned : Bool
deriving DecidableEq, Repr

/-- Embeds `generate` (python.rs lines 131-251): if the offloaded setup fails,
the `??` at line 165 returns the error from `generate` itself — the forwarding
task is never spawned and no stream is handed back. Otherwise the forwarding
task pumps the guest stream into the channel. -/
def generate {Resp : Type} (setup : SetupOutcome Resp) (accept : Nat) :
    Except String (GenerateOutput Resp) :=
  match setup with
  | SetupOutcome.fail m => Except.error m
  | SetupOutcome.ok items =>
    let r := pump items accept
    Except.ok ⟨r.1, r.2, true⟩

/-- Outcome of running the `PY_IMPORT` snippet on the user file
(python.rs lines 100-111): either `py.run` succeeds and the module is
extracted (recording whether it has a `generate` attribute, looked up later at
line 78), or the Python import machinery raises (unreadable file, exec
error). -/
inductive LoadOutcome where
  | loadOk (hasGenerate : Bool)
  | loadErr (msg : String)
deriving DecidableEq, Repr

/-- Result of a Rust computation distinguishing a returned `Ok`, a returned
`Err`, and a process panic (what `.unwrap()` does on an `Err`). -/
inductive PRes (α : Type) where
  | ok (a : α)
  | err (msg : String)
  | panicked (msg : String)
deriving DecidableEq, Repr

/-- The loaded user module, recording whether it has a `generate` attribute. -/
structure PyModule where
  hasGenerate : Bool
deriving DecidableEq, Repr

/-- Embeds `python_file_to_module` (python.rs lines 100-111). The function is
typed `-> Result<PyObject>` but every fallible step inside it is `.unwrap()`d:
when the import snippet raises (file unreadable), `py.run(...).unwrap()`
panics; no execution path returns `Err`. -/
def python_file_to_module (load : LoadOutcome) : PRes PyModule :=
  match load with
  | LoadOutcome.loadErr m => PRes.panicked m
  | LoadOutcome.loadOk hasGen => PRes.ok ⟨hasGen⟩

/-- Embeds `PythonStringEngine::new` (python.rs lines 72-84): after the event
loop handoff, the module is loaded (panicking on load failure, see
`python_file_to_module`), then the `generate` attribute is resolved with
`user_module.getattr(py, "generate").unwrap()`, which panics when the
attribute is missing. -/
def PythonStringEngine.new (load : LoadOutcome) : PRes PyModule :=
  match python_file_to_module load with
  | PRes.panicked m => PRes.panicked m
  | PRes.err m => PRes.err m
  | PRes.ok m =>
    if m.hasGenerate then PRes.ok m
    else PRes.panicked "called `Result::unwrap()` on an `Err` value: AttributeError: module has no attribute given to getattr"

/-- Whether the body of `run_asyncio` (python.rs lines 88-98) terminates: it
blocks on `event_loop.run_forever()`, which never returns, so the dedicated
thread spawned at line 74 keeps running regardless of what happens to the
construction afterwards. -/
def run_asyncio_returns : Bool := false

/-- Construction outcome together with the state of the dedicated event-loop
thread afterwards. `PythonStringEngine::new` spawns the thread (line 74)
before loading the module and never joins, aborts or signals it. -/
structure ConstructionAftermath where
  result : PRes PyModule
  eventLoopThreadRunning : Bool
deriving DecidableEq, Repr

/-- Embeds the observable effect of `PythonStringEngine::new` including the
event-loop thread it spawns at line 74: whatever the load outcome, the thread
sits in `run_forever` and is still running afterwards. -/
def constructWithThread (load : LoadOutcome) : ConstructionAftermath :=
  ⟨PythonStringEngine.new load, !run_asyncio_returns⟩

/-- Embeds Python `str.replace(".py", "")` as used on the file name in the
`PY_IMPORT` snippet (python.rs line 45): scans left to right and removes every
non-overlapping occurrence of the three-character substring ".py". -/
def replacePy : List Char → List Char
  | [] => []
  | [c] => [c]
  | [c, c2] => [c, c2]
  | c :: c2 :: c3 :: rest =>
    if c = '.' ∧ c2 = 'p' ∧ c3 = 'y' then replacePy rest
    else c :: replacePy (c2 :: c3 :: rest)

/-- Embeds Python `str.split("/")` (python.rs line 45): splits on every slash,
keeping empty chunks; the result is never empty. -/
def splitOnSlash : List Char → List (List Char)
  | [] => [[]]
  | c :: rest =>
    if c = '/' then [] :: splitOnSlash rest
    else
      match splitOnSlash rest with
      | [] => [[c]]
      | g :: gs => (c :: g) :: gs

/-- Embeds line 45 of the `PY_IMPORT` snippet:
`module_name = file_path.split("/")[-1].replace(".py", "")`. -/
def module_name (file_path : List Char) : List Char :=
  replacePy ((splitOnSlash file_path).getLastD [])

theorem pump_nil {Resp : Type} (accept : Nat) :
    pump ([] : List (GuestItem Resp)) accept = ([], 0) := rfl

theorem pump_ok_cons {Resp : Type} (r : Resp) (rest : List (GuestItem Resp))
    (a : Nat) :
    pump (GuestItem.okDeser r :: rest) (a + 1) =
      (Annotated.data r :: (pump rest a).1, (pump rest a).2) := rfl

theorem pump_ok_cons_zero {Resp : Type} (r : Resp)
    (rest : List (GuestItem Resp)) :
    pump (GuestItem.okDeser r :: rest) 0 = ([], 0) := rfl

/-- Pumping a list that starts with successfully converting items, while the
consumer stays connected long enough, forwards them as data-tagged responses
and continues with the remaining items and the remaining send budget. -/
theorem pump_ok_append {Resp : Type} (rs : List Resp)
    (rest : List (GuestItem Resp)) (acc : Nat) (h : rs.length ≤ acc) :
    pump (rs.map GuestItem.okDeser ++ rest) acc =
      (rs.map Annotated.data ++ (pump rest (acc - rs.length)).1,
        (pump rest (acc - rs.length)).2) := by
  induction rs generalizing acc with
  | nil => simp
  | cons r rs ih =>
    cases acc with
    | zero => exact absurd h (by simp)
    | succ a =>
      have ha : rs.length ≤ a := Nat.le_of_succ_le_succ h
      simp only [List.map_cons, List.cons_append, pump_ok_cons, ih a ha,
        List.length_cons, Nat.succ_sub_succ]

/-- A disconnecting consumer truncates an all-successful stream: with a send
budget smaller than the item count, exactly the first `acc` items are
delivered, all data-tagged, and `stop_generating` is never invoked. -/
theorem pump_ok_truncated {Resp : Type} (rs : List Resp) (acc : Nat)
    (h : acc < rs.length) :
    pump (rs.map GuestItem.okDeser) acc = ((rs.take acc).map Annotated.data, 0) := by
  induction rs generalizing acc with
  | nil => exact absurd h (by simp)
  | cons r rs ih =>
    cases acc with
    | zero => simp [pump_ok_cons_zero]
    | succ a =>
      have ha : a < rs.length := Nat.lt_of_succ_lt_succ h
      simp [pump_ok_cons, ih a ha]

/-- Shape of every forwarding-loop output: a run of data-tagged responses,
optionally terminated by a single error-tagged response. In particular at
most one error item is ever delivered, and it is always the last item. -/
theorem pump_shape {Resp : Type} (items : List (GuestItem Resp)) (acc : Nat) :
    (∃ ds : List Resp, (pump items acc).1 = ds.map Annotated.data) ∨
      (∃ ds : List Resp, ∃ m : String,
        (pump items acc).1 = ds.map Annotated.data ++ [Annotated.error m]) := by
  induction items generalizing acc with
  | nil => exact Or.inl ⟨[], rfl⟩
  | cons item rest ih =>
    cases item with
    | okDeser r =>
      cases acc with
      | zero => exact Or.inl ⟨[], rfl⟩
      | succ a =>
        rcases ih a with ⟨ds, hds⟩ | ⟨ds, m, hds⟩
        · exact Or.inl ⟨r :: ds, by simp [pump_ok_cons, hds]⟩
        · exact Or.inr ⟨r :: ds, m, by simp [pump_ok_cons, hds]⟩
    | okDeserFail m =>
      cases acc with
      | zero => exact Or.inl ⟨[], rfl⟩
      | succ a => exact Or.inr ⟨[], errorMsg (ResponseProcessingError.DeserializeError m), rfl⟩
    | okOffloadFail m =>
      cases acc with
      | zero => exact Or.inl ⟨[], rfl⟩
      | succ a => exact Or.inr ⟨[], errorMsg (ResponseProcessingError.OffloadError m), rfl⟩
    | exn m =>
      cases acc with
      | zero => exact Or.inl ⟨[], rfl⟩
      | succ a => exact Or.inr ⟨[], errorMsg (ResponseProcessingError.PythonException m), rfl⟩

/-- One channel step preserves the channel invariant. -/
theorem chanStep_inv {α : Type} {cap : Nat} {items : List α} (b : Bool)
    {s : ChanState α} (h : ChanInv cap items s) :
    ChanInv cap items (chanStep cap b s) := by
  obtain ⟨h1, h2, h3⟩ := h
  cases b with
  | false =>
    cases hb : s.buf with
    | nil =>
      simpa [chanStep, hb] using ⟨h1, h2, h3⟩
    | cons x xs =>
      refine ⟨?_, ?_, ?_⟩
      · simp only [chanStep, hb]
        exact Nat.le_of_succ_le (by simpa [hb] using h1)
      · simp only [chanStep, hb]
        simpa [hb, List.append_assoc] using h2
      · simp only [chanStep, hb]
        exact h3
  | true =>
    cases hp : s.pending with
    | nil =>
      refine ⟨?_, ?_, ?_⟩
      · simpa [chanStep, hp] using h1
      · simpa [chanStep, hp] using h2
      · simp [chanStep, hp]
    | cons x xs =>
      by_cases hful : s.buf.length < cap
      · refine ⟨?_, ?_, ?_⟩
        · simp only [chanStep, hp, hful, if_true, List.length_append,
            List.length_cons, List.length_nil]
          exact hful
        · simp only [chanStep, hp, hful, if_true]
          simpa [hp, List.append_assoc] using h2
        · simp only [chanStep, hp, hful, if_true]
          intro hc
          exact absurd (h3 hc) (by simp [hp])
      · simpa [chanStep, hp, hful] using ⟨h1, h2, h3⟩

/-- Any interleaving of producer and consumer turns preserves the channel
invariant. -/
theorem chanRun_inv {α : Type} {cap : Nat} {items : List α}
    (sched : List Bool) {s : ChanState α} (h : ChanInv cap items s) :
    ChanInv cap items (chanRun cap sched s) := by
  induction sched generalizing s with
  | nil => exact h
  | cons b bs ih => exact ih (chanStep_inv b h)

/-- Every forwarding-loop trace is strictly sequential: pull, convert, send
of one item complete before the next pull. -/
theorem pumpTrace_seqOK {Resp : Type} (items : List (GuestItem Resp))
    (acc k : Nat) : seqOK (pumpTrace items acc k) k Phase.idle = true := by
  induction items generalizing acc k with
  | nil => rfl
  | cons item rest ih =>
    cases item <;> cases acc <;>
      simp [pumpTrace, process_item, seqOK, ih]

/-- Once a send fails, the forwarding-loop trace ends. -/
theorem pumpTrace_stopsAfterSendFail {Resp : Type}
    (items : List (GuestItem Resp)) (acc k : Nat) :
    noEventsAfterSendFail (pumpTrace items acc k) = true := by
  induction items generalizing acc k with
  | nil => rfl
  | cons item rest ih =>
    cases item <;> cases acc <;>
      simp [pumpTrace, process_item, noEventsAfterSendFail, ih]

/-- A character other than a dot is never the start of a ".py" occurrence, so
`replacePy` keeps it. -/
theorem replacePy_cons_ne (c : Char) (h : c ≠ '.') (t : List Char) :
    replacePy (c :: t) = c :: replacePy t := by
  match t with
  | [] => rfl
  | [d] => rfl
  | d :: e :: t' => simp [replacePy, h]

/-- A ".py" occurrence at the head is removed whole. -/
theorem replacePy_py (t : List Char) :
    replacePy ('.' :: 'p' :: 'y' :: t) = replacePy t := by
  simp [replacePy]

/-- A dot-free chunk passes through `replacePy` unchanged. -/
theorem replacePy_clean (u t : List Char) (hu : ∀ c ∈ u, c ≠ '.') :
    replacePy (u ++ t) = u ++ replacePy t := by
  induction u with
  | nil => rfl
  | cons c u' ih =>
    have hc : c ≠ '.' := hu c (by simp)
    have hu' : ∀ x ∈ u', x ≠ '.' := fun x hx => hu x (by simp [hx])
    simp only [List.cons_append, replacePy_cons_ne c hc, ih hu']

/-- Python `split` never returns an empty list. -/
theorem splitOnSlash_ne_nil (l : List Char) : splitOnSlash l ≠ [] := by
  cases l with
  | nil => simp [splitOnSlash]
  | cons c rest =>
    simp only [splitOnSlash]
    split
    · simp
    · split <;> simp

/-- Splitting a slash-free string yields the single chunk itself. -/
theorem splitOnSlash_noSlash (l : List Char) (h : ∀ c ∈ l, c ≠ '/') :
    splitOnSlash l = [l] := by
  induction l with
  | nil => rfl
  | cons c rest ih =>
    have hc : c ≠ '/' := h c (by simp)
    have hrest : ∀ x ∈ rest, x ≠ '/' := fun x hx => h x (by simp [hx])
    simp [splitOnSlash, hc, ih hrest]

/-- Splitting a string starting with a slash prepends an empty chunk. -/
theorem splitOnSlash_slash_cons (ys : List Char) :
    splitOnSlash ('/' :: ys) = [] :: splitOnSlash ys := by
  simp [splitOnSlash]

/-- Splitting a string that contains a slash yields at least two chunks. -/
theorem splitOnSlash_append_length (xs ys : List Char) :
    2 ≤ (splitOnSlash (xs ++ '/' :: ys)).length := by
  induction xs with
  | nil =>
    have h2 := List.length_pos.mpr (splitOnSlash_ne_nil ys)
    rw [List.nil_append, splitOnSlash_slash_cons, List.length_cons]
    omega
  | cons c xs ih =>
    by_cases hc : c = '/'
    · have h2 := List.length_pos.mpr (splitOnSlash_ne_nil (xs ++ '/' :: ys))
      rw [List.cons_append, hc, splitOnSlash_slash_cons, List.length_cons]
      omega
    · cases hS : splitOnSlash (xs ++ '/' :: ys) with
      | nil => exact absurd hS (splitOnSlash_ne_nil _)
      | cons g gs =>
        have h3 : splitOnSlash ((c :: xs) ++ '/' :: ys) = (c :: g) :: gs := by
          simp [splitOnSlash, hc, hS]
        rw [h3]
        rw [hS] at ih
        simpa using ih

/-- The last chunk of a split is unaffected by anything before the last
slash. -/
theorem splitOnSlash_last_append (xs ys : List Char) :
    (splitOnSlash (xs ++ '/' :: ys)).getLastD [] =
      (splitOnSlash ys).getLastD [] := by
  induction xs with
  | nil =>
    rw [List.nil_append, splitOnSlash_slash_cons, List.getLastD_cons]
  | cons c xs ih =>
    by_cases hc : c = '/'
    · rw [List.cons_append, hc, splitOnSlash_slash_cons, List.getLastD_cons, ih]
    · have h2 := splitOnSlash_append_length xs ys
      cases hS : splitOnSlash (xs ++ '/' :: ys) with
      | nil => exact absurd hS (splitOnSlash_ne_nil _)
      | cons g gs =>
        cases gs with
        | nil => rw [hS] at h2; simp at h2
        | cons g2 gs2 =>
          have h3 : splitOnSlash ((c :: xs) ++ '/' :: ys) =
              (c :: g) :: g2 :: gs2 := by
            simp [splitOnSlash, hc, hS]
          rw [h3, List.getLastD_cons, List.getLastD_cons]
          rw [hS, List.getLastD_cons, List.getLastD_cons] at ih
          exact ih

/-- C1 counterexample: with items `[ok 0, python-exception "boom", ok 1]` and a
connected consumer, the code delivers only two items — the loop sets
`done = true` for a `PythonException` and breaks after sending the error item
(python.rs lines 196-197 and 233-239) — so the stream does not yield all
3 items as the claim states. -/
theorem c1_counterexample :
    pump ([GuestItem.okDeser 0, GuestItem.exn "boom", GuestItem.okDeser 1] :
        List (GuestItem Nat)) 5 =
      ([Annotated.data 0,
        Annotated.error "a python exception was caught while processing the async generator: boom"],
        0) ∧
    (pump ([GuestItem.okDeser 0, GuestItem.exn "boom", GuestItem.okDeser 1] :
        List (GuestItem Nat)) 5).1.length ≠ 3 :=
  ⟨by decide, by decide⟩

/-- C1 (amended): when the guest sequence raises a guest-side exception for
item k (after k−1 successful items), the forwarding loop emits one
error-tagged Annotated Response for item k and then terminates: the stream
delivers exactly k items (the first k−1 data-tagged, item k error-tagged),
none of the remaining items are pulled or forwarded, and `stop_generating` is
not invoked. -/
theorem c1_guest_exception_is_terminal {Resp : Type} (rs : List Resp)
    (m : String) (post : List (GuestItem Resp)) (acc : Nat)
    (h : rs.length < acc) :
    pump (rs.map GuestItem.okDeser ++ GuestItem.exn m :: post) acc =
      (rs.map Annotated.data ++
        [Annotated.error (errorMsg (ResponseProcessingError.PythonException m))],
        0) := by
  rw [pump_ok_append rs _ acc (Nat.le_of_lt h)]
  cases hd : acc - rs.length with
  | zero => omega
  | succ b => simp [pump, process_item, stopsFor]

/-- C1 witness: the amended theorem at a concrete input. -/
theorem c1_witness :
    (([0] : List Nat)).length < 3 ∧
    pump (([0] : List Nat).map GuestItem.okDeser ++
        GuestItem.exn "boom" :: [GuestItem.okDeser 1]) 3 =
      (([0] : List Nat).map Annotated.data ++
        [Annotated.error (errorMsg (ResponseProcessingError.PythonException "boom"))],
        0) :=
  ⟨by decide, c1_guest_exception_is_terminal [0] "boom" [GuestItem.okDeser 1] 3 (by decide)⟩

/-- C2 counterexample: when the offload join fails for the first item, the
stream is terminated with one error item but `stop_generating` is invoked
zero times, not once — the `ctx.stop_generating()` call appears only in the
`DeserializeError` arm (python.rs line 204), not in the `OffloadError` arm —
refuting the claim that both fatal cases invoke the cancellation signal
exactly once. -/
theorem c2_counterexample :
    pump ([GuestItem.okOffloadFail "x"] : List (GuestItem Nat)) 1 =
      ([Annotated.error "critical error: failed to offload the python async generator to a new thread: x"],
        0) ∧
    (pump ([GuestItem.okOffloadFail "x"] : List (GuestItem Nat)) 1).2 ≠ 1 :=
  ⟨by decide, by decide⟩

/-- C2 (amended): when item k fails fatally after k−1 successful items, the
stream yields exactly k items — the first k−1 data-tagged and item k a single
terminal error-tagged item, with no item k+1 — and the cancellation signal
`stop_generating` is invoked exactly once when the failure is a response
deserialization mismatch and zero times when the conversion offload task
fails to join. -/
theorem c2_fatal_conversion_terminal {Resp : Type} (rs : List Resp)
    (m : String) (post : List (GuestItem Resp)) (acc : Nat)
    (h : rs.length < acc) :
    pump (rs.map GuestItem.okDeser ++ GuestItem.okDeserFail m :: post) acc =
      (rs.map Annotated.data ++
        [Annotated.error (errorMsg (ResponseProcessingError.DeserializeError m))],
        1) ∧
    pump (rs.map GuestItem.okDeser ++ GuestItem.okOffloadFail m :: post) acc =
      (rs.map Annotated.data ++
        [Annotated.error (errorMsg (ResponseProcessingError.OffloadError m))],
        0) := by
  constructor
  · rw [pump_ok_append rs _ acc (Nat.le_of_lt h)]
    cases hd : acc - rs.length with
    | zero => omega
    | succ b => simp [pump, process_item, stopsFor]
  · rw [pump_ok_append rs _ acc (Nat.le_of_lt h)]
    cases hd : acc - rs.length with
    | zero => omega
    | succ b => simp [pump, process_item, stopsFor]

/-- C2 witness: the amended theorem at a concrete input. -/
theorem c2_witness :
    (([7] : List Nat)).length < 4 ∧
    pump (([7] : List Nat).map GuestItem.okDeser ++
        GuestItem.okDeserFail "bad" :: []) 4 =
      (([7] : List Nat).map Annotated.data ++
        [Annotated.error (errorMsg (ResponseProcessingError.DeserializeError "bad"))],
        1) :=
  ⟨by decide, (c2_fatal_conversion_terminal [7] "bad" [] 4 (by decide)).1⟩

/-- C3: for a guest invocation that yields N successfully converted items and
completes normally (with the consumer connected throughout), the stream
delivers exactly the N data-tagged responses in production order and closes
with no `stop_generating` call; moreover every possible stream output is a
run of data-tagged items optionally terminated by a single error-tagged item,
so at most one error item is ever emitted and, when emitted, it is the last
item on the stream. -/
theorem c3_ordered_stream {Resp : Type} (rs : List Resp) (acc : Nat)
    (h : rs.length ≤ acc) :
    pump (rs.map GuestItem.okDeser) acc = (rs.map Annotated.data, 0) ∧
    ∀ (items : List (GuestItem Resp)) (acc2 : Nat),
      (∃ ds : List Resp, (pump items acc2).1 = ds.map Annotated.data) ∨
      (∃ ds : List Resp, ∃ m : String,
        (pump items acc2).1 = ds.map Annotated.data ++ [Annotated.error m]) := by
  constructor
  · have h1 := pump_ok_append rs [] acc h
    simpa [pump_nil] using h1
  · exact fun items acc2 => pump_shape items acc2

/-- C3 witness: the theorem at a concrete input. -/
theorem c3_witness :
    (([3, 4] : List Nat)).length ≤ 9 ∧
    pump (([3, 4] : List Nat).map GuestItem.okDeser) 9 =
      (([3, 4] : List Nat).map Annotated.data, 0) :=
  ⟨by decide, (c3_ordered_stream [3, 4] 9 (by decide)).1⟩

/-- C4: evaluation of the construction path at the failing inputs. The claim
says construction returns a standard error result without panicking, but the
code `.unwrap()`s both the module import (python.rs line 106) and the
`generate` attribute lookup (line 78): an unreadable file or a module without
a `generate` attribute panics the process instead of returning `Err`. -/
theorem c4_construction_panics (m : String) :
    PythonStringEngine.new (LoadOutcome.loadErr m) = PRes.panicked m ∧
    PythonStringEngine.new (LoadOutcome.loadOk false) =
      PRes.panicked "called `Result::unwrap()` on an `Err` value: AttributeError: module has no attribute given to getattr" :=
  ⟨rfl, rfl⟩

/-- C5 counterexample: loading a nonexistent script path leaves the dedicated
event-loop thread running — it is spawned at python.rs line 74 before the
module load and `run_asyncio` blocks in `run_forever` with nothing ever
stopping it — and the construction does not return a descriptive error value,
it panics (line 106). -/
theorem c5_counterexample :
    (constructWithThread (LoadOutcome.loadErr "No such file or directory")).eventLoopThreadRunning
      = true ∧
    (constructWithThread (LoadOutcome.loadErr "No such file or directory")).result =
      PRes.panicked "No such file or directory" :=
  ⟨rfl, rfl⟩

/-- C5 (amended): loading a nonexistent script path aborts Bridge
construction with a panic (the `py.run(PY_IMPORT).unwrap()` on the import
error) rather than a returned error result, and the Event Loop Host's
dedicated thread — spawned before the load, blocking in `run_forever` — is
left running after the failed construction. -/
theorem c5_failed_construction_leaves_thread (m : String) :
    constructWithThread (LoadOutcome.loadErr m) =
      ⟨PRes.panicked m, true⟩ := rfl

/-- C6: the per-request response channel is bounded with capacity exactly 128
(python.rs line 142), and under any interleaving of producer and consumer
turns the buffer never exceeds that capacity, no item is dropped, duplicated
or reordered (`received ++ buf ++ pending` is always the original production
sequence, so a full buffer suspends the producer), and once the producer end
is dropped (channel closed) and the buffer drained, the consumer has received
the whole sequence — the close is observed as end-of-stream. -/
theorem c6_bounded_channel :
    channelCapacity = 128 ∧
    ∀ (α : Type) (items : List α) (sched : List Bool),
      (chanRun channelCapacity sched (ChanState.mk items [] false [])).buf.length ≤
        channelCapacity ∧
      (chanRun channelCapacity sched (ChanState.mk items [] false [])).received ++
        (chanRun channelCapacity sched (ChanState.mk items [] false [])).buf ++
        (chanRun channelCapacity sched (ChanState.mk items [] false [])).pending = items ∧
      ((chanRun channelCapacity sched (ChanState.mk items [] false [])).closed = true →
        (chanRun channelCapacity sched (ChanState.mk items [] false [])).buf = [] →
        (chanRun channelCapacity sched (ChanState.mk items [] false [])).received = items) := by
  refine ⟨rfl, ?_⟩
  intro α items sched
  have h0 : ChanInv channelCapacity items (ChanState.mk items [] false []) :=
    ⟨by simp, by simp, by simp⟩
  obtain ⟨h1, h2, h3⟩ := chanRun_inv sched h0
  refine ⟨h1, h2, ?_⟩
  intro hc hb
  have hp := h3 hc
  rw [hb, hp] at h2
  simpa using h2

/-- C6 witness: the theorem at a concrete input, exercising the close and
end-of-stream implication. -/
theorem c6_witness :
    (chanRun channelCapacity [true, false, true, false, true]
        (ChanState.mk ([1, 2] : List Nat) [] false [])).received = [1, 2] :=
  (c6_bounded_channel.2 Nat [1, 2] [true, false, true, false, true]).2.2
    (by decide) (by decide)

/-- C7: when the consumer disconnects after `acc` items of an otherwise
successful stream, the forwarding loop delivers exactly the first `acc` items
(all data-tagged, in order), invokes no cancellation and emits no error item
for the disconnect, and the loop's event trace stops dead at the failed send
— no further pulls, conversions or diagnostics. -/
theorem c7_consumer_disconnect_silent {Resp : Type} (rs : List Resp)
    (acc : Nat) (h : acc < rs.length) :
    pump (rs.map GuestItem.okDeser) acc = ((rs.take acc).map Annotated.data, 0) ∧
    noEventsAfterSendFail (pumpTrace (rs.map GuestItem.okDeser) acc 1) = true :=
  ⟨pump_ok_truncated rs acc h, pumpTrace_stopsAfterSendFail _ acc 1⟩

/-- C7 witness: the theorem at a concrete input. -/
theorem c7_witness :
    1 < (([5, 6] : List Nat)).length ∧
    pump (([5, 6] : List Nat).map GuestItem.okDeser) 1 =
      ((([5, 6] : List Nat).take 1).map Annotated.data, 0) :=
  ⟨by decide, (c7_consumer_disconnect_silent [5, 6] 1 (by decide)).1⟩

/-- C8 counterexample: for the path "dir/a.py.py" the synthesized module name
is "a" — Python `str.replace(".py", "")` removes every occurrence of the
substring — whereas stripping only the trailing extension, as the claim
states, would give "a.py". -/
theorem c8_counterexample :
    module_name ("dir/a.py.py".data) = "a".data ∧ "a".data ≠ "a.py".data :=
  ⟨by decide, by decide⟩

/-- C8 (amended): the synthesized module name is the file's base name (the
part after the last '/') with every occurrence of the substring ".py"
removed, not only a trailing extension: for any directory part `d` and any
dot-free, slash-free chunks `a`, `b`, the path `d / a.py b.py` yields the
module name `a ++ b` — both the inner and the trailing ".py" are removed. -/
theorem c8_module_name_removes_all_py (d a b : List Char)
    (ha : ∀ c ∈ a, c ≠ '.' ∧ c ≠ '/') (hb : ∀ c ∈ b, c ≠ '.' ∧ c ≠ '/') :
    module_name (d ++ '/' :: (a ++ ('.' :: 'p' :: 'y' :: (b ++ ['.', 'p', 'y'])))) =
      a ++ b := by
  unfold module_name
  rw [splitOnSlash_last_append d _]
  have hbase : ∀ c ∈ (a ++ ('.' :: 'p' :: 'y' :: (b ++ ['.', 'p', 'y']))), c ≠ '/' := by
    intro c hc
    rcases List.mem_append.mp hc with h1 | h2
    · exact (ha c h1).2
    · rcases List.mem_cons.mp h2 with rfl | h3
      · decide
      · rcases List.mem_cons.mp h3 with rfl | h4
        · decide
        · rcases List.mem_cons.mp h4 with rfl | h5
          · decide
          · rcases List.mem_append.mp h5 with h6 | h7
            · exact (hb c h6).2
            · rcases List.mem_cons.mp h7 with rfl | h8
              · decide
              · rcases List.mem_cons.mp h8 with rfl | h9
                · decide
                · rcases List.mem_cons.mp h9 with rfl | h10
                  · decide
                  · exact absurd h10 (List.not_mem_nil c)
  rw [splitOnSlash_noSlash _ hbase, List.getLastD_cons, List.getLastD_nil]
  rw [replacePy_clean a _ (fun c hc => (ha c hc).1), replacePy_py,
    replacePy_clean b _ (fun c hc => (hb c hc).1), replacePy_py]
  simp [replacePy]

/-- C8 witness: the amended theorem at a concrete input,
"d/a.pyb.py" ↦ "ab". -/
theorem c8_witness :
    (∀ c ∈ (['a'] : List Char), c ≠ '.' ∧ c ≠ '/') ∧
    (∀ c ∈ (['b'] : List Char), c ≠ '.' ∧ c ≠ '/') ∧
    module_name (['d'] ++ '/' :: (['a'] ++ ('.' :: 'p' :: 'y' :: (['b'] ++ ['.', 'p', 'y'])))) =
      ['a'] ++ ['b'] :=
  ⟨by decide, by decide,
    c8_module_name_removes_all_py ['d'] ['a'] ['b'] (by decide) (by decide)⟩

/-- C9: when the initial offloaded setup step fails (request conversion,
entry-point invocation, or obtaining the guest async sequence — the
`spawn_blocking(...).await??` at python.rs lines 157-165), `generate` itself
returns an error result: no forwarding task is spawned, no stream or channel
is handed to the caller, and zero Annotated Responses are emitted. -/
theorem c9_setup_failure_errs (Resp : Type) (m : String) (acc : Nat) :
    generate (SetupOutcome.fail m : SetupOutcome Resp) acc = Except.error m := rfl

/-- C10: the forwarding task is strictly sequential with no pipelining: its
event trace is pull k, convert k (the offloaded deserialization completing),
send k, in that order, before pull k+1 — so item k's conversion and channel
send complete before item k+1 is pulled and at most one item is ever in
conversion flight. -/
theorem c10_no_pipelining {Resp : Type} (items : List (GuestItem Resp))
    (acc k : Nat) : seqOK (pumpTrace items acc k) k Phase.idle = true :=
  pumpTrace_seqOK items acc k

end PyBridge
